import Mathlib

/-!
Shallow embedding of the subtotal-extraction / workbook-assembly pipeline
(source file: src/비급여보고.py).

Modelling conventions:
* A spreadsheet table (`pandas.DataFrame`) is a list of column labels plus a
  list of rows, each row a list of cells aligned positionally with the labels.
* A cell scalar is either a textual value, a numeric value (rationals stand in
  for Python floats), or an empty cell (`NaN`); Python's `astype(str)` turns an
  empty cell into the string "nan", which the embedding reproduces.
* Column access (`df[label]`, `df.loc[:, labels]`) resolves a label to the
  first column bearing it, as pandas does for unique labels.
* Python dicts are association lists in insertion order where writing to an
  existing key replaces its value in place (`alistInsert`).
* String normalisation follows the source: `str.strip`, `str.lower` (ASCII
  case folding; the labels involved are Korean or ASCII), and the regex
  whitespace class over the ASCII whitespace characters.
-/

/-- The ASCII whitespace characters matched by Python's `str.strip` and the
regex class `\s` on the inputs considered here. -/
def pyIsSpace (c : Char) : Bool :=
  c == ' ' || c == '\t' || c == '\n' || c == '\r' || c == '\x0b' || c == '\x0c'

/-- Python `str.strip()`: drop whitespace from both ends. -/
def pyStrip (s : String) : String :=
  ⟨((s.data.dropWhile pyIsSpace).reverse.dropWhile pyIsSpace).reverse⟩

/-- Python `str.lower()` (ASCII case folding; sufficient for the Korean/ASCII
labels this program manipulates). -/
def pyLower (s : String) : String :=
  ⟨s.data.map Char.toLower⟩

/-- `_norm`: normalisation used to compare column labels — remove `\n`/`\r`,
delete every whitespace run (`re.sub(r"\s+", "", s)`), lower-case. Removing
`\n` and `\r` first is subsumed by deleting all whitespace characters. -/
def _norm (s : String) : String :=
  pyLower ⟨s.data.filter (fun c => !(pyIsSpace c))⟩

/-- The alias directory `ALIASES`: canonical field name to candidate raw
labels in priority order, in the dict's insertion order. -/
def ALIASES : List (String × List String) :=
  [("차트번호", ["차트번호", "차트", "chartno", "chart_no", "chart"]),
   ("오더코드", ["오더코드", "오더 코드", "처방코드", "처방 코드", "ordercode", "order_code"]),
   ("청구코드", ["청구코드", "청구 코드", "edi코드", "edi 코드", "claimcode", "claim_code"]),
   ("오더금액", ["오더금액", "오더 금액", "금액", "청구금액", "amount", "orderamt", "order_amt"]),
   ("단가", ["단가", "수가", "수가단가", "price", "unitprice", "unit_price"]),
   ("계산", ["계산", "계산용량", "계산수량", "수량", "횟수", "산정횟수", "산정수량", "qty", "quantity"]),
   ("일수", ["일수", "days", "day", "기간", "투약일수", "재원일수"]),
   ("오더명칭", ["오더명칭", "오더 명칭", "처방명", "처방명칭", "명칭", "항목명", "ordername", "order_name"])]

/-- `REQUIRED_COLS`: the required canonical columns; '계산' is deliberately
absent. -/
def REQUIRED_COLS : List String :=
  ["차트번호", "오더코드", "청구코드", "오더금액", "단가", "일수", "오더명칭"]

/-- `DISPLAY_COLS`: the fixed 7-column display order of the subtotal table. -/
def DISPLAY_COLS : List String :=
  ["오더코드", "청구코드", "오더금액", "단가", "계산", "일수", "오더명칭"]

/-- A spreadsheet cell scalar. -/
inductive Cell where
  | str : String → Cell
  | num : ℚ → Cell
  | empty : Cell
deriving DecidableEq

/-- Python `str()` of a cell, as `astype(str)` applies it: text unchanged,
an empty cell (`NaN`) becomes "nan". The rendering of numeric scalars is
abstracted (the pipeline never re-stringifies a numeric cell it produced, and
every table in the claims carries textual cells). -/
def cellStr : Cell → String
  | Cell.str s => s
  | Cell.num q => toString q
  | Cell.empty => "nan"

/-- A table: column labels plus rows of positionally aligned cells. -/
structure Table where
  cols : List String
  rows : List (List Cell)
deriving DecidableEq

/-- Python dict write `m[k] = v`: replace the value of an existing key in
place, otherwise append the new binding. -/
def alistInsert {α : Type} (m : List (String × α)) (k : String) (v : α) :
    List (String × α) :=
  match m with
  | [] => [(k, v)]
  | (k', v') :: rest =>
    if k' = k then (k, v) :: rest else (k', v') :: alistInsert rest k v

/-- `norm_to_raw`: the dict comprehension `{_norm(c): c for c in df.columns}` —
normalised label to original label, later columns overwriting earlier ones on
duplicate normalised forms. -/
def norm_to_raw (cols : List String) : List (String × String) :=
  cols.foldl (fun m c => alistInsert m (_norm c) c) []

/-- The inner loop of `_canonical_view`: first candidate (in priority order)
whose normalised form is a key of `norm_to_raw`, returning the raw label it
maps to. -/
def firstAliasMatch (ntr : List (String × String)) : List String → Option String
  | [] => none
  | cand :: rest =>
    match ntr.lookup (_norm cand) with
    | some raw => some raw
    | none => firstAliasMatch ntr rest

/-- `rename_map`: original column label to canonical field name, built by
scanning each canonical field's candidate list for its first hit. -/
def rename_map (cols : List String) : List (String × String) :=
  let ntr := norm_to_raw cols
  ALIASES.foldl
    (fun rm p =>
      match firstAliasMatch ntr p.2 with
      | some raw => alistInsert rm raw p.1
      | none => rm)
    []

/-- `_canonical_view`: rename the columns via `rename_map`, leaving rows (and
unmatched labels) untouched. -/
def _canonical_view (t : Table) : Table :=
  let rm := rename_map t.cols
  { cols := t.cols.map (fun c => ((rm.lookup c).getD c)), rows := t.rows }

/-- Characters kept by the cleanup regex of `_to_num`
(`[^0-9\.\-]` removed). -/
def keepNumChar (c : Char) : Bool :=
  c.isDigit || c == '.' || c == '-'

/-- Numeric value of a digit list (most significant first). -/
def digitsVal (ds : List Char) : ℕ :=
  ds.foldl (fun a c => 10 * a + (c.toNat - '0'.toNat)) 0

/-- Parse an unsigned decimal: digits, optionally followed by '.' and digits,
with at least one digit overall (Python accepts "1.", ".5"). -/
def parseUnsigned (cs : List Char) : Option ℚ :=
  let intPart := cs.takeWhile Char.isDigit
  let rest := cs.dropWhile Char.isDigit
  match rest with
  | [] => if intPart.isEmpty then none else some (digitsVal intPart : ℚ)
  | '.' :: frac =>
    if frac.all Char.isDigit && !(intPart.isEmpty && frac.isEmpty) then
      some ((digitsVal intPart : ℚ) + (digitsVal frac : ℚ) / ((10 : ℚ) ^ frac.length))
    else none
  | _ => none

/-- `pd.to_numeric(errors="coerce")` on one cleaned string (which by
construction contains only digits, '.' and '-'): optional leading minus sign,
then an unsigned decimal; anything else is a parse failure (`NaN`). -/
def parseNumeric (s : String) : Option ℚ :=
  match s.data with
  | '-' :: rest => (parseUnsigned rest).map Neg.neg
  | cs => parseUnsigned cs

/-- The `Series.replace({"nan": "", "None": ""})` step of `_to_num`: the exact
values "nan" and "None" become "", anything else passes through. -/
def replaceNanNone (t : String) : String :=
  if t == "nan" || t == "None" then "" else t

/-- `_to_num` on one cell's string form: strip, map the literal values "nan"
and "None" to "", drop commas, keep only digits/'.'/'-', parse, and default to
0 when parsing fails. -/
def _to_num (s : String) : ℚ :=
  (parseNumeric
    ⟨((replaceNanNone (pyStrip s)).data.filter (fun c => c != ',')).filter
      keepNumChar⟩).getD 0

/-- The NumericCoercer policy exactly as §4.3 of the spec words it: stringify,
trim, strip every character that is not a digit, '.' or '-' (which drops the
thousands separators), parse, and yield 0 on failure or emptiness. (No
special-casing of "nan"/"None"; stated for comparison with `_to_num`.) -/
def toNumberSpec (s : String) : ℚ :=
  (parseNumeric ⟨(pyStrip s).data.filter keepNumChar⟩).getD 0

/-- The payload of the `ValueError` raised by `_make_filtered`: the missing
canonical fields and the original raw headers quoted in the message. -/
structure SchemaError where
  missing : List String
  rawCols : List String
deriving DecidableEq

/-- Index of the first column bearing a label (`df[label]` for a unique
label). -/
def colIdx (cols : List String) (c : String) : Nat :=
  cols.indexOf c

/-- Positional cell access within a row (rows of a `DataFrame` are always as
long as the header, so the default is never observed on well-formed input). -/
def getCell (row : List Cell) (i : Nat) : Cell :=
  row.getD i Cell.empty

/-- `dfw["계산"] = ""` when the column is absent: append an all-empty-string
column. -/
def addCalcColumn (t : Table) : Table :=
  if "계산" ∈ t.cols then t
  else { cols := t.cols ++ ["계산"], rows := t.rows.map (fun r => r ++ [Cell.str ""]) }

/-- The failure payload of `_make_filtered`: either the explicit `ValueError`
of the missing-column check, or the `AttributeError` pandas raises when a
label access (`dfw["차트번호"]`, `sub["오더금액"]`, `sub["단가"]`) hits a
duplicated column label, returns a `DataFrame`, and `.str` is taken inside
`_to_num` / the mask computation. The string names the offending label. -/
inductive PdError where
  | schema : SchemaError → PdError
  | attributeError : String → PdError
deriving DecidableEq

/-- The row mask `dfw["차트번호"].astype(str).str.strip().eq("소계")`.
`_make_filtered` computes it only after ruling out a duplicated '차트번호'
label (that case raises), so the first column bearing the label — which
`colIdx` selects — is the unique one. -/
def isSubtotalRow (cols : List String) (row : List Cell) : Bool :=
  pyStrip (cellStr (getCell row (colIdx cols "차트번호"))) == "소계"

/-- All cells of a row lying in columns bearing label `c`, in column order —
what `df.loc[:, [... c ...]]` contributes for one requested label, duplicates
included. -/
def projectOne (cols : List String) (row : List Cell) (c : String) : List Cell :=
  ((cols.zip row).filter (fun p => p.1 = c)).map Prod.snd

/-- Row projection `dfw.loc[mask, DISPLAY_COLS]`: for each display label in
order, every column bearing it (pandas keeps all duplicates). -/
def projectDisplay (cols : List String) (row : List Cell) : List Cell :=
  DISPLAY_COLS.flatMap (projectOne cols row)

/-- The column labels of the projected subtotal frame: each display label
replicated once per column of the canonical view bearing it. -/
def displayProjCols (cols : List String) : List String :=
  DISPLAY_COLS.flatMap (fun c => cols.filter (fun x => x = c))

/-- The per-row effect of `sub["오더금액"] = _to_num(...)` and
`sub["단가"] = _to_num(...)`: coerce the cells at the positions labelled
'오더금액' or '단가' in the projected frame (`_make_filtered` raises first
when either label is duplicated, so each assignment targets one column). -/
def coerceRowBy (subCols : List String) (row : List Cell) : List Cell :=
  row.mapIdx (fun i c =>
    if subCols.getD i "" = "오더금액" ∨ subCols.getD i "" = "단가"
    then Cell.num (_to_num (cellStr c)) else c)

/-- `missing = [c for c in REQUIRED_COLS if c not in dfw.columns]`. -/
def missingCols (t : Table) : List String :=
  REQUIRED_COLS.filter (fun c => !((_canonical_view t).cols.contains c))

/-- The subtotal table produced on the success path of `_make_filtered`:
synthesize '계산' when absent, filter the subtotal rows, project to the
display labels (duplicates expanded as pandas does), coerce the two numeric
columns. -/
def subtotalTable (t : Table) : Table :=
  let dfw2 := addCalcColumn (_canonical_view t)
  { cols := displayProjCols dfw2.cols,
    rows := ((dfw2.rows.filter (isSubtotalRow dfw2.cols)).map
              (projectDisplay dfw2.cols)).map (coerceRowBy (displayProjCols dfw2.cols)) }

/-- `_make_filtered`: canonicalize, check `REQUIRED_COLS` (which never lists
'계산') and raise on any miss; then, as the pandas code does, raise an
`AttributeError` if the mask access hits a duplicated '차트번호' label
(line 142) or either numeric coercion hits a duplicated '오더금액'/'단가'
label in the projected frame (lines 146-147); otherwise extract the subtotal
table. -/
def _make_filtered (t : Table) : Except PdError Table :=
  if (missingCols t).isEmpty then
    if 1 < (addCalcColumn (_canonical_view t)).cols.count "차트번호" then
      Except.error (PdError.attributeError "차트번호")
    else if 1 < (displayProjCols (addCalcColumn (_canonical_view t)).cols).count "오더금액" then
      Except.error (PdError.attributeError "오더금액")
    else if 1 < (displayProjCols (addCalcColumn (_canonical_view t)).cols).count "단가" then
      Except.error (PdError.attributeError "단가")
    else Except.ok (subtotalTable t)
  else Except.error (PdError.schema { missing := missingCols t, rawCols := t.cols })

/-- Test fixture: a table carrying every required column under its canonical
name (no '계산' column) and one data row whose grouping cell is `v`. -/
def chartRowTable (v : String) : Table :=
  { cols := REQUIRED_COLS,
    rows := [[Cell.str v, Cell.str "A", Cell.str "B", Cell.str "100",
              Cell.str "50", Cell.str "1", Cell.str "N"]] }

/-- An output sheet: partial map from 0-based row index to the written row
(`None` = a row no `to_excel` call ever touched, i.e. a blank row). -/
def Grid := Nat → Option (List Cell)

/-- A sheet before anything is written. -/
def emptyGrid : Grid := fun _ => none

/-- `df.to_excel(writer, sheet_name=sh, index=False, startrow=k)`: the header
row lands on row `k`, the data rows immediately below, and every other row is
left as it was. -/
def writeDF (g : Grid) (t : Table) (startrow : Nat) : Grid := fun r =>
  if r = startrow then some (t.cols.map Cell.str)
  else if startrow < r ∧ r ≤ startrow + t.rows.length then t.rows.get? (r - startrow - 1)
  else g r

/-- One file sheet: the subtotal block at row 0, then the full original table
starting `(1 + len(df_f)) + 2` rows down. -/
def buildSheetGrid (df_f df_o : Table) : Grid :=
  writeDF (writeDF emptyGrid df_f 0) df_o (1 + df_f.rows.length + 2)

/-- The characters `\ / * ? : [ ]` that `_clean_sheet_name` replaces. -/
def forbiddenSheetChar (c : Char) : Bool :=
  c == '\\' || c == '/' || c == '*' || c == '?' || c == ':' || c == '[' || c == ']'

/-- `re.sub(r"[\\/*?:\[\]]", "_", name)`. -/
def sanitizeSheetChars (s : String) : String :=
  ⟨s.data.map (fun c => if forbiddenSheetChar c then '_' else c)⟩

/-- Candidate `f"{base[:31-len(suf)]}{suf}"` for suffix index `i`. -/
def candSheetName (base : String) (i : Nat) : String :=
  let suf := "_" ++ toString i
  ⟨base.data.take (31 - suf.length)⟩ ++ suf

/-- The disambiguation `while True` loop of `_clean_sheet_name`, modelled with
fuel. Candidates for distinct suffix indices are distinct sheet names, so
`used.length + 1` probes always reach an unused name and the fuel-exhausted
fallback is unreachable from `_clean_sheet_name`. -/
def probeSheetName (base : String) (used : List String) : Nat → Nat → String × List String
  | 0, i => (candSheetName base i, used ++ [candSheetName base i])
  | fuel + 1, i =>
    let cand := candSheetName base i
    if used.contains cand then probeSheetName base used fuel (i + 1)
    else (cand, used ++ [cand])

/-- `_clean_sheet_name`: strip, replace forbidden characters, substitute
"Sheet" for an empty result, truncate to 31 characters, then disambiguate
against the registry of already-used names (returned extended). -/
def _clean_sheet_name (name : String) (used : List String) : String × List String :=
  let n := pyStrip name
  let n := sanitizeSheetChars n
  let n := if n = "" then "Sheet" else n
  let base : String := ⟨n.data.take 31⟩
  if used.contains base then probeSheetName base used (used.length + 1) 2
  else (base, used ++ [base])

/-- The table with no columns and no rows (used only as the default of a
lookup that cannot miss). -/
def emptyTable : Table := { cols := [], rows := [] }

/-- One iteration of the `for label in per_orig.keys()` loop of
`_build_excel`: reserve a sheet name against the registry and emit the
two-block sheet for that label. -/
def buildStep (perSub : List (String × Table))
    (acc : List (String × Grid) × List String) (entry : String × Table) :
    List (String × Grid) × List String :=
  let res := _clean_sheet_name entry.1 acc.2
  let df_f := (perSub.lookup entry.1).getD emptyTable
  (acc.1 ++ [(res.1, buildSheetGrid df_f entry.2)], res.2)

/-- `_build_excel`: the summary sheet first, then one sheet per entry of
`per_orig` in key order, each holding the subtotal block above the full
original block; sheet names funnel through one shared registry. -/
def _build_excel (perOrig perSub : List (String × Table)) (summary : Table) :
    List (String × Grid) :=
  let start := _clean_sheet_name "요약" []
  (start.1, writeDF emptyGrid summary 0)
    :: (perOrig.foldl (buildStep perSub) ([], start.2)).1

/-- An uploaded file: its display name and its parse outcome — `none` when
`pd.ExcelFile` cannot read the bytes, otherwise the named sheets. -/
structure UploadedFile where
  name : String
  workbook : Option (List (String × Table))
deriving DecidableEq

/-- A collected per-file failure: the source was unreadable, or extraction
raised (missing required fields, or a duplicated-label access). -/
inductive BatchError where
  | loadError : BatchError
  | extractError : PdError → BatchError
deriving DecidableEq

/-- `_find_target_sheet`: the first sheet whose normalised headers contain a
normalised '차트번호' alias, else the first sheet; `none` only when the
workbook has no sheets (where `sheet_names[0]` would raise). -/
def _find_target_sheet (sheets : List (String × Table)) : Option String :=
  match sheets.find? (fun st =>
    (((ALIASES.lookup "차트번호").getD ["차트번호"]).map _norm).any
      (fun cn => (st.2.cols.map _norm).contains cn)) with
  | some st => some st.1
  | none => sheets.head?.map Prod.fst

/-- `_load_original`: parse the upload and read the selected sheet, or fail. -/
def _load_original (f : UploadedFile) : Except BatchError (Table × String) :=
  match f.workbook with
  | none => Except.error BatchError.loadError
  | some sheets =>
    match _find_target_sheet sheets with
    | none => Except.error BatchError.loadError
    | some sh => Except.ok ((sheets.lookup sh).getD emptyTable, sh)

/-- `re.sub(r"\.xlsx$", "", f.name, flags=re.IGNORECASE).strip() or f.name`. -/
def fileLabel (name : String) : String :=
  let lowered := name.data.map Char.toLower
  let dropped : String :=
    if 5 ≤ lowered.length && lowered.drop (lowered.length - 5) == ".xlsx".data
    then ⟨name.data.take (name.data.length - 5)⟩ else name
  let stripped := pyStrip dropped
  if stripped = "" then name else stripped

/-- Numeric content of a cell of an already-coerced numeric column (`.sum()`
reads these). -/
def cellNum : Cell → ℚ
  | Cell.num q => q
  | _ => 0

/-- `df[c].sum()` over a numeric column. -/
def colSum (t : Table) (c : String) : ℚ :=
  (t.rows.map (fun r => cellNum (getCell r (colIdx t.cols c)))).sum

/-- One row appended to `summary_rows`. -/
structure SummaryRow where
  label : String
  srcSheet : String
  subRowCount : Nat
  amountSum : ℚ
deriving DecidableEq

/-- The dict literal appended for one successfully processed file. -/
def mkSummaryRow (label usedSheet : String) (df_f : Table) : SummaryRow :=
  { label := label, srcSheet := usedSheet, subRowCount := df_f.rows.length,
    amountSum := colSum df_f "오더금액" }

/-- The four accumulators of the batch loop. -/
structure BatchState where
  perOrig : List (String × Table)
  perSub : List (String × Table)
  summaryRows : List SummaryRow
  errors : List (String × BatchError)

/-- The body of the `try:` block for one file: label, original table, subtotal
table and source-sheet name, or the caught exception. -/
def processFile (f : UploadedFile) : Except BatchError (String × Table × Table × String) :=
  match _load_original f with
  | Except.error e => Except.error e
  | Except.ok (df_o, usedSheet) =>
    match _make_filtered df_o with
    | Except.error e => Except.error (BatchError.extractError e)
    | Except.ok df_f => Except.ok (fileLabel f.name, df_o, df_f, usedSheet)

/-- Whether a file's `try:` block succeeds. -/
def processOk (f : UploadedFile) : Bool :=
  match processFile f with
  | Except.ok _ => true
  | Except.error _ => false

/-- One iteration of `for f in files:` — update the dicts and the summary list
on success, append `[{f.name}] {e}` to the error list on failure. -/
def batchStep (st : BatchState) (f : UploadedFile) : BatchState :=
  match processFile f with
  | Except.error e => { st with errors := st.errors ++ [(f.name, e)] }
  | Except.ok (label, df_o, df_f, usedSheet) =>
    { perOrig := alistInsert st.perOrig label df_o,
      perSub := alistInsert st.perSub label df_f,
      summaryRows := st.summaryRows ++ [mkSummaryRow label usedSheet df_f],
      errors := st.errors }

/-- The whole batch loop from empty accumulators. -/
def runBatchState (files : List UploadedFile) : BatchState :=
  files.foldl batchStep { perOrig := [], perSub := [], summaryRows := [], errors := [] }

/-- Stable descending insertion by "오더금액 합계": place `x` before the first
row whose sum does not exceed it. -/
def insertDesc (x : SummaryRow) : List SummaryRow → List SummaryRow
  | [] => [x]
  | y :: ys => if y.amountSum ≤ x.amountSum then x :: y :: ys else y :: insertDesc x ys

/-- `summary_df.sort_values("오더금액 합계", ascending=False)` modelled as a
stable descending sort (pandas' `nargsort` double-reversal around the argsort
kernel; exact for the small frames where numpy's default quicksort degenerates
to insertion sort — see the C9 discussion). -/
def sortSummary : List SummaryRow → List SummaryRow
  | [] => []
  | x :: xs => insertDesc x (sortSummary xs)

/-- `pd.DataFrame(summary_rows)` with the dict-literal column order. -/
def summaryTable (rows : List SummaryRow) : Table :=
  { cols := ["시트(파일명)", "원본시트", "소계 행수", "오더금액 합계"],
    rows := rows.map (fun r =>
      [Cell.str r.label, Cell.str r.srcSheet, Cell.num r.subRowCount, Cell.num r.amountSum]) }

/-- The batch: run every file, and only if no error was collected produce the
workbook (sheet list) and the sorted summary. -/
def runBatch (files : List UploadedFile) :
    Except (List (String × BatchError)) (List (String × Grid) × List SummaryRow) :=
  let st := runBatchState files
  if st.errors.isEmpty then
    let summary := sortSummary st.summaryRows
    Except.ok (_build_excel st.perOrig st.perSub (summaryTable summary), summary)
  else
    Except.error st.errors

/-- One step of first-occurrence deduplication: append a key only if new. -/
def dedupStep (acc : List String) (l : String) : List String :=
  if l ∈ acc then acc else acc ++ [l]

/-- First-occurrence deduplication (the key order a Python dict ends up with
after repeated writes). -/
def dedupFO (ls : List String) : List String :=
  ls.foldl dedupStep []

/-- A label the sanitizer passes through unchanged: already stripped, free of
forbidden characters, non-empty and at most 31 characters. -/
def sheetSafe (l : String) : Bool :=
  pyStrip l == l && sanitizeSheetChars l == l && l != "" && l.data.length ≤ 31

/-- The error entry a file contributes to the batch error list, if any. -/
def fileError (f : UploadedFile) : Option (String × BatchError) :=
  match processFile f with
  | Except.error e => some (f.name, e)
  | Except.ok _ => none

/-- The label under which a successfully processed file is keyed. -/
def successLabel (f : UploadedFile) : Option String :=
  match processFile f with
  | Except.ok (label, _, _, _) => some label
  | Except.error _ => none

/-- The summary row a successfully processed file appends. -/
def fileSummary (f : UploadedFile) : Option SummaryRow :=
  match processFile f with
  | Except.ok (label, _, df_f, usedSheet) => some (mkSummaryRow label usedSheet df_f)
  | Except.error _ => none

/-- Fixture: a one-sheet workbook whose sheet holds every required canonical
column and one subtotal row with the given raw amount text. -/
def reportWb (amount : String) : List (String × Table) :=
  [("Sheet1",
    { cols := REQUIRED_COLS,
      rows := [[Cell.str "소계", Cell.str "A", Cell.str "B", Cell.str amount,
                Cell.str "50", Cell.str "1", Cell.str "N"]] })]

/-- Fixture: first uploaded file named "Report.xlsx". -/
def reportFile1 : UploadedFile :=
  { name := "Report.xlsx", workbook := some (reportWb "100") }

/-- Fixture: second uploaded file, same name "Report.xlsx", different data. -/
def reportFile2 : UploadedFile :=
  { name := "Report.xlsx", workbook := some (reportWb "250") }

/-- Fixture: an uploaded file with a distinct name "Other.xlsx". -/
def otherFile : UploadedFile :=
  { name := "Other.xlsx", workbook := some (reportWb "250") }

/-- Fixture: the table carried by `reportWb amount`. -/
def reportTable (amount : String) : Table :=
  { cols := REQUIRED_COLS,
    rows := [[Cell.str "소계", Cell.str "A", Cell.str "B", Cell.str amount,
              Cell.str "50", Cell.str "1", Cell.str "N"]] }

/-- Fixture: an uploaded file missing the required column '단가'. -/
def badFile : UploadedFile :=
  { name := "Bad.xlsx",
    workbook := some
      [("Sheet1",
        { cols := ["차트번호", "오더코드", "청구코드", "오더금액", "일수", "오더명칭"],
          rows := [[Cell.str "소계", Cell.str "A", Cell.str "B", Cell.str "100",
                    Cell.str "1", Cell.str "N"]] })] }

/-- Fixture subtotal block for the C3 witness. -/
def wSub : Table :=
  { cols := DISPLAY_COLS,
    rows := [[Cell.str "a", Cell.str "b", Cell.str "100", Cell.str "50",
              Cell.str "", Cell.str "1", Cell.str "n"]] }

/-- Fixture original block for the C3 witness. -/
def wOrig : Table :=
  { cols := ["차트번호", "오더코드"],
    rows := [[Cell.str "r1c1", Cell.str "r1c2"], [Cell.str "소계", Cell.str "x"]] }

theorem keepNumChar_and_not_comma (c : Char) :
    (keepNumChar c && (c != ',')) = keepNumChar c := by
  by_cases h : c = ','
  · subst h; decide
  · have hb : (c != ',') = true := by simp [h]
    rw [hb, Bool.and_true]

theorem replaceNanNone_filter (t : String) :
    (replaceNanNone t).data.filter keepNumChar = t.data.filter keepNumChar := by
  unfold replaceNanNone
  rcases eq_or_ne t "nan" with h | h1
  · subst h; decide
  rcases eq_or_ne t "None" with h | h2
  · subst h; decide
  have hc : (t == "nan" || t == "None") = false := by
    simp [h1, h2]
  simp [hc]

theorem to_num_eq_spec (s : String) : _to_num s = toNumberSpec s := by
  unfold _to_num toNumberSpec
  rw [List.filter_filter]
  simp only [keepNumChar_and_not_comma]
  rw [replaceNanNone_filter]

/-- C5: NumericCoercer is total (it is a Lean function into ℚ), agrees with
the spec's stringify/trim/drop-commas/strip/parse-else-0 policy on every
string, and meets the four quoted examples. -/
theorem c5_to_num_total_policy :
    (∀ s : String, _to_num s = toNumberSpec s)
    ∧ _to_num "1,234.50" = 1234.5
    ∧ _to_num "" = 0
    ∧ _to_num "abc" = 0
    ∧ _to_num "-12" = -12 := by
  refine ⟨to_num_eq_spec, ?_, rfl, rfl, ?_⟩
  · have h : _to_num "1,234.50"
        = ((digitsVal ['1', '2', '3', '4'] : ℚ)
            + (digitsVal ['5', '0'] : ℚ) / (10 : ℚ) ^ 2) := rfl
    have h1 : digitsVal ['1', '2', '3', '4'] = 1234 := rfl
    have h2 : digitsVal ['5', '0'] = 50 := rfl
    rw [h, h1, h2]
    norm_num
  · have h : _to_num "-12" = -(digitsVal ['1', '2'] : ℚ) := rfl
    have h1 : digitsVal ['1', '2'] = 12 := rfl
    rw [h, h1]
    norm_num

/-- C4 counterexample: "소 계" collapses to the sentinel "소계" under
whitespace-collapsing normalisation, yet `_make_filtered` does not select the
row carrying it — the code compares after a plain trim only. -/
theorem c4_embedded_space_row_not_selected :
    _norm "소 계" = "소계"
    ∧ pyStrip "소 계" ≠ "소계"
    ∧ _make_filtered (chartRowTable "소 계")
        = Except.ok { cols := DISPLAY_COLS, rows := [] } := by
  refine ⟨rfl, by decide, rfl⟩

/-- C4 (amended): a row is selected into the subtotal table exactly when its
grouping value equals "소계" after trimming alone — internal whitespace is not
collapsed. -/
theorem c4_trim_only_selection (v : String) :
    ∃ s, _make_filtered (chartRowTable v) = Except.ok s
      ∧ (s.rows ≠ [] ↔ pyStrip v = "소계") := by
  have hcols : (_canonical_view (chartRowTable v)).cols = REQUIRED_COLS := by
    have h0 : (_canonical_view (chartRowTable v)).cols
        = REQUIRED_COLS.map (fun c => (((rename_map REQUIRED_COLS).lookup c).getD c)) := rfl
    rw [h0]
    decide
  have hrows : (_canonical_view (chartRowTable v)).rows
      = [[Cell.str v, Cell.str "A", Cell.str "B", Cell.str "100",
          Cell.str "50", Cell.str "1", Cell.str "N"]] := rfl
  have haddCalc : addCalcColumn (_canonical_view (chartRowTable v))
      = { cols := REQUIRED_COLS ++ ["계산"],
          rows := [[Cell.str v, Cell.str "A", Cell.str "B", Cell.str "100",
                    Cell.str "50", Cell.str "1", Cell.str "N", Cell.str ""]] } := by
    unfold addCalcColumn
    rw [hcols, if_neg (by decide), hrows]
    rfl
  have hdp : displayProjCols (REQUIRED_COLS ++ ["계산"]) = DISPLAY_COLS := by decide
  have hmiss : (missingCols (chartRowTable v)).isEmpty = true := by
    unfold missingCols
    rw [hcols]
    decide
  have hg1 : ¬ (1 <
      (addCalcColumn (_canonical_view (chartRowTable v))).cols.count "차트번호") := by
    rw [haddCalc]
    show ¬ (1 < (REQUIRED_COLS ++ ["계산"]).count "차트번호")
    decide
  have hg2 : ¬ (1 < (displayProjCols
      (addCalcColumn (_canonical_view (chartRowTable v))).cols).count "오더금액") := by
    rw [haddCalc]
    show ¬ (1 < (displayProjCols (REQUIRED_COLS ++ ["계산"])).count "오더금액")
    decide
  have hg3 : ¬ (1 < (displayProjCols
      (addCalcColumn (_canonical_view (chartRowTable v))).cols).count "단가") := by
    rw [haddCalc]
    show ¬ (1 < (displayProjCols (REQUIRED_COLS ++ ["계산"])).count "단가")
    decide
  have key : _make_filtered (chartRowTable v)
      = Except.ok (subtotalTable (chartRowTable v)) := by
    unfold _make_filtered
    rw [if_pos hmiss, if_neg hg1, if_neg hg2, if_neg hg3]
  have hsrows : (subtotalTable (chartRowTable v)).rows
      = (([[Cell.str v, Cell.str "A", Cell.str "B", Cell.str "100",
            Cell.str "50", Cell.str "1", Cell.str "N", Cell.str ""]].filter
            (isSubtotalRow (REQUIRED_COLS ++ ["계산"]))).map
          (projectDisplay (REQUIRED_COLS ++ ["계산"]))).map
          (coerceRowBy DISPLAY_COLS) := by
    simp only [subtotalTable]
    rw [haddCalc]
    dsimp only
    rw [hdp]
  have hsub : isSubtotalRow (REQUIRED_COLS ++ ["계산"])
      [Cell.str v, Cell.str "A", Cell.str "B", Cell.str "100",
       Cell.str "50", Cell.str "1", Cell.str "N", Cell.str ""]
      = (pyStrip v == "소계") := rfl
  refine ⟨subtotalTable (chartRowTable v), key, ?_⟩
  rw [hsrows, List.filter_cons, hsub]
  by_cases h : pyStrip v = "소계"
  · have hb : (pyStrip v == "소계") = true := by simp [h]
    rw [hb]
    simp [h]
  · have hb : (pyStrip v == "소계") = false := by simp [h]
    rw [hb]
    simp [h]

/-- Witness for C4 (amended) at `v := " 소계 "`: trimming alone selects the
row. -/
theorem c4_trim_only_selection_witness :
    ∃ s, _make_filtered (chartRowTable " 소계 ") = Except.ok s
      ∧ (s.rows ≠ [] ↔ pyStrip " 소계 " = "소계") :=
  c4_trim_only_selection " 소계 "

theorem lookup_cons_eqn {α : Type} (k1 k' : String) (v1 : α) (rest : List (String × α)) :
    ((k1, v1) :: rest).lookup k' = if k' = k1 then some v1 else rest.lookup k' := by
  rw [List.lookup_cons]
  by_cases h : k' = k1
  · have hb : (k' == k1) = true := by simp [h]
    rw [hb]
    exact (if_pos h).symm
  · have hb : (k' == k1) = false := by simp [h]
    rw [hb]
    exact (if_neg h).symm

theorem lookup_alistInsert {α : Type} (m : List (String × α)) (k k' : String) (v : α) :
    (alistInsert m k v).lookup k' = if k' = k then some v else m.lookup k' := by
  induction m with
  | nil =>
    rw [show alistInsert ([] : List (String × α)) k v = [(k, v)] from rfl, lookup_cons_eqn,
      List.lookup_nil]
  | cons p rest ih =>
    obtain ⟨k1, v1⟩ := p
    show (if k1 = k then (k, v) :: rest else (k1, v1) :: alistInsert rest k v).lookup k' = _
    by_cases h1 : k1 = k
    · subst h1
      rw [if_pos rfl, lookup_cons_eqn, lookup_cons_eqn]
      by_cases h : k' = k1
      · simp [h]
      · simp [h]
    · rw [if_neg h1, lookup_cons_eqn, lookup_cons_eqn, ih]
      by_cases h : k' = k1
      · have h2 : ¬ k' = k := fun hh => h1 (h ▸ hh)
        rw [if_pos h, if_neg h2, if_pos h]
      · by_cases h2 : k' = k
        · rw [if_neg h, if_pos h2, if_pos h2]
        · rw [if_neg h, if_neg h2, if_neg h2, if_neg h]

theorem foldl_alistInsert_lookup (cols : List String) (m : List (String × String))
    (k : String) :
    (cols.foldl (fun m c => alistInsert m (_norm c) c) m).lookup k
      = (cols.reverse.find? (fun c => _norm c == k)).or (m.lookup k) := by
  induction cols generalizing m with
  | nil => simp
  | cons c rest ih =>
    have hinner : (alistInsert m (_norm c) c).lookup k
        = ([c].find? (fun x => _norm x == k)).or (m.lookup k) := by
      rw [lookup_alistInsert]
      by_cases h : _norm c = k
      · have hb : (_norm c == k) = true := by simp [h]
        have hf : [c].find? (fun x => _norm x == k) = some c :=
          List.find?_cons_of_pos _ hb
        rw [hf, if_pos h.symm]
        simp
      · have hb : (_norm c == k) = false := by simp [h]
        have hf : [c].find? (fun x => _norm x == k) = none := by
          rw [List.find?_cons_of_neg _ (by simp [hb])]
          rfl
        rw [hf, if_neg (fun hh => h hh.symm)]
        simp
    rw [List.foldl_cons, ih, hinner, ← Option.or_assoc, ← List.find?_append,
      ← List.reverse_cons]

theorem norm_to_raw_lookup_isSome (cols : List String) (k : String) :
    ((norm_to_raw cols).lookup k).isSome = true ↔ k ∈ cols.map _norm := by
  rw [norm_to_raw, foldl_alistInsert_lookup, List.lookup_nil, Option.or_none]
  rw [List.find?_isSome]
  constructor
  · rintro ⟨x, hx, hpx⟩
    rw [List.mem_reverse] at hx
    exact List.mem_map.mpr ⟨x, hx, by simpa using hpx⟩
  · intro hk
    rcases List.mem_map.mp hk with ⟨x, hx, rfl⟩
    exact ⟨x, List.mem_reverse.mpr hx, by simp⟩

theorem norm_to_raw_lookup_eq_none (cols : List String) (k : String)
    (h : k ∉ cols.map _norm) : (norm_to_raw cols).lookup k = none := by
  rcases ho : (norm_to_raw cols).lookup k with _ | raw
  · rfl
  · exact absurd ((norm_to_raw_lookup_isSome cols k).mp (by rw [ho]; rfl)) h

/-- C8 counterexample: two raw headers "Order Code" and "ORDERCODE" share a
normalised form; `norm_to_raw` resolves the affected canonical field '오더코드'
to the *later* header "ORDERCODE", not the earliest "Order Code". -/
theorem c8_first_occurrence_counterexample :
    _norm "Order Code" = _norm "ORDERCODE"
    ∧ (norm_to_raw ["Order Code", "ORDERCODE"]).lookup (_norm "ordercode")
        = some "ORDERCODE"
    ∧ firstAliasMatch (norm_to_raw ["Order Code", "ORDERCODE"])
        ((ALIASES.lookup "오더코드").getD []) = some "ORDERCODE"
    ∧ ("ORDERCODE" : String) ≠ "Order Code" := by
  exact ⟨rfl, rfl, rfl, by decide⟩

/-- C8 (amended): on duplicate normalised forms the *last* occurrence wins —
the raw label `norm_to_raw` resolves for a normalised key is the latest raw
header in column order bearing that normalised form. -/
theorem c8_amended_last_occurrence_wins (cols : List String) (k : String) :
    (norm_to_raw cols).lookup k = cols.reverse.find? (fun c => _norm c == k) := by
  rw [norm_to_raw, foldl_alistInsert_lookup, List.lookup_nil, Option.or_none]

/-- C2: resolution scans the candidate list in declared priority order and
returns at the first candidate whose normalised form occurs among the
normalised raw headers; all later candidates are ignored. -/
theorem c2_first_candidate_priority (cols cands : List String) (i : Nat)
    (hi : i < cands.length)
    (hhit : _norm (cands.get ⟨i, hi⟩) ∈ cols.map _norm)
    (hfirst : ∀ j (hj : j < i), _norm (cands.get ⟨j, Nat.lt_trans hj hi⟩) ∉ cols.map _norm) :
    firstAliasMatch (norm_to_raw cols) cands
      = (norm_to_raw cols).lookup (_norm (cands.get ⟨i, hi⟩)) := by
  induction cands generalizing i with
  | nil => exact absurd hi (Nat.not_lt_zero i)
  | cons c rest ih =>
    cases i with
    | zero =>
      have hs : ((norm_to_raw cols).lookup (_norm c)).isSome = true :=
        (norm_to_raw_lookup_isSome cols (_norm c)).mpr hhit
      rcases Option.isSome_iff_exists.mp hs with ⟨raw, hraw⟩
      have hstep : firstAliasMatch (norm_to_raw cols) (c :: rest) = some raw := by
        show (match (norm_to_raw cols).lookup (_norm c) with
              | some raw => some raw
              | none => firstAliasMatch (norm_to_raw cols) rest) = some raw
        rw [hraw]
      rw [hstep]
      exact hraw.symm
    | succ i' =>
      have h0 : _norm c ∉ cols.map _norm := hfirst 0 (Nat.succ_pos i')
      have hnone : (norm_to_raw cols).lookup (_norm c) = none :=
        norm_to_raw_lookup_eq_none cols (_norm c) h0
      have hstep : firstAliasMatch (norm_to_raw cols) (c :: rest)
          = firstAliasMatch (norm_to_raw cols) rest := by
        show (match (norm_to_raw cols).lookup (_norm c) with
              | some raw => some raw
              | none => firstAliasMatch (norm_to_raw cols) rest) = _
        rw [hnone]
      rw [hstep]
      exact ih i' (Nat.lt_of_succ_lt_succ hi) hhit
        (fun j hj => hfirst (j + 1) (Nat.succ_lt_succ hj))

/-- Witness for C2: the spec's own example — directory candidates
["amount", "total"] against raw headers ["total", "amount"] resolve to the raw
header "amount" (candidate priority beats raw column position). -/
theorem c2_first_candidate_priority_witness :
    firstAliasMatch (norm_to_raw ["total", "amount"]) ["amount", "total"]
      = (norm_to_raw ["total", "amount"]).lookup (_norm "amount")
    ∧ firstAliasMatch (norm_to_raw ["total", "amount"]) ["amount", "total"]
      = some "amount" := by
  refine ⟨c2_first_candidate_priority ["total", "amount"] ["amount", "total"] 0 (by decide)
    (by decide) (fun j hj => absurd hj (Nat.not_lt_zero j)), rfl⟩

/-- C3: in a file sheet, the subtotal block (header plus all N rows) starts at
row 0, rows N+1 and N+2 are blank, the full original table follows verbatim
with its header at 0-based offset 1 + N + 2 and its rows directly below, and
nothing is written after it. -/
theorem c3_two_block_sheet_layout (df_f df_o : Table) :
    buildSheetGrid df_f df_o 0 = some (df_f.cols.map Cell.str)
    ∧ (∀ i, i < df_f.rows.length →
        buildSheetGrid df_f df_o (1 + i) = df_f.rows.get? i)
    ∧ buildSheetGrid df_f df_o (df_f.rows.length + 1) = none
    ∧ buildSheetGrid df_f df_o (df_f.rows.length + 2) = none
    ∧ buildSheetGrid df_f df_o (1 + df_f.rows.length + 2) = some (df_o.cols.map Cell.str)
    ∧ (∀ j, j < df_o.rows.length →
        buildSheetGrid df_f df_o (df_f.rows.length + 4 + j) = df_o.rows.get? j)
    ∧ (∀ r, df_f.rows.length + 4 + df_o.rows.length ≤ r →
        buildSheetGrid df_f df_o r = none) := by
  refine ⟨?_, ?_, ?_, ?_, ?_, ?_, ?_⟩
  · unfold buildSheetGrid writeDF emptyGrid
    rw [if_neg (by omega : ¬((0 : Nat) = 1 + df_f.rows.length + 2)),
      if_neg (by omega :
        ¬(1 + df_f.rows.length + 2 < 0
          ∧ 0 ≤ 1 + df_f.rows.length + 2 + df_o.rows.length)),
      if_pos rfl]
  · intro i hi
    unfold buildSheetGrid writeDF emptyGrid
    rw [if_neg (by omega : ¬(1 + i = 1 + df_f.rows.length + 2)),
      if_neg (by omega :
        ¬(1 + df_f.rows.length + 2 < 1 + i
          ∧ 1 + i ≤ 1 + df_f.rows.length + 2 + df_o.rows.length)),
      if_neg (by omega : ¬(1 + i = 0)),
      if_pos (by omega : 0 < 1 + i ∧ 1 + i ≤ 0 + df_f.rows.length)]
    congr 1
    omega
  · unfold buildSheetGrid writeDF emptyGrid
    rw [if_neg (by omega : ¬(df_f.rows.length + 1 = 1 + df_f.rows.length + 2)),
      if_neg (by omega :
        ¬(1 + df_f.rows.length + 2 < df_f.rows.length + 1
          ∧ df_f.rows.length + 1 ≤ 1 + df_f.rows.length + 2 + df_o.rows.length)),
      if_neg (by omega : ¬(df_f.rows.length + 1 = 0)),
      if_neg (by omega :
        ¬(0 < df_f.rows.length + 1 ∧ df_f.rows.length + 1 ≤ 0 + df_f.rows.length))]
  · unfold buildSheetGrid writeDF emptyGrid
    rw [if_neg (by omega : ¬(df_f.rows.length + 2 = 1 + df_f.rows.length + 2)),
      if_neg (by omega :
        ¬(1 + df_f.rows.length + 2 < df_f.rows.length + 2
          ∧ df_f.rows.length + 2 ≤ 1 + df_f.rows.length + 2 + df_o.rows.length)),
      if_neg (by omega : ¬(df_f.rows.length + 2 = 0)),
      if_neg (by omega :
        ¬(0 < df_f.rows.length + 2 ∧ df_f.rows.length + 2 ≤ 0 + df_f.rows.length))]
  · unfold buildSheetGrid writeDF emptyGrid
    rw [if_pos rfl]
  · intro j hj
    unfold buildSheetGrid writeDF emptyGrid
    rw [if_neg (by omega : ¬(df_f.rows.length + 4 + j = 1 + df_f.rows.length + 2)),
      if_pos (by omega :
        1 + df_f.rows.length + 2 < df_f.rows.length + 4 + j
          ∧ df_f.rows.length + 4 + j ≤ 1 + df_f.rows.length + 2 + df_o.rows.length)]
    congr 1
    omega
  · intro r hr
    unfold buildSheetGrid writeDF emptyGrid
    rw [if_neg (by omega : ¬(r = 1 + df_f.rows.length + 2)),
      if_neg (by omega :
        ¬(1 + df_f.rows.length + 2 < r
          ∧ r ≤ 1 + df_f.rows.length + 2 + df_o.rows.length)),
      if_neg (by omega : ¬(r = 0)),
      if_neg (by omega : ¬(0 < r ∧ r ≤ 0 + df_f.rows.length))]

/-- Witness for C3 at a 1-row subtotal block and a 2-row original block:
rows 0-1 hold the subtotal block, rows 2-3 are blank, row 4 = 1 + 1 + 2 holds
the original header, rows 5-6 its data, row 7 is blank. -/
theorem c3_two_block_sheet_layout_witness :
    buildSheetGrid wSub wOrig 0 = some (wSub.cols.map Cell.str)
    ∧ buildSheetGrid wSub wOrig 1 = wSub.rows.get? 0
    ∧ buildSheetGrid wSub wOrig 2 = none
    ∧ buildSheetGrid wSub wOrig 3 = none
    ∧ buildSheetGrid wSub wOrig 4 = some [Cell.str "차트번호", Cell.str "오더코드"]
    ∧ buildSheetGrid wSub wOrig 5 = some [Cell.str "r1c1", Cell.str "r1c2"]
    ∧ buildSheetGrid wSub wOrig 6 = some [Cell.str "소계", Cell.str "x"]
    ∧ buildSheetGrid wSub wOrig 7 = none := by
  obtain ⟨h0, h1, h2, h3, h4, h5, h6⟩ := c3_two_block_sheet_layout wSub wOrig
  exact ⟨h0, h1 0 (by decide), h2, h3, h4, h5 0 (by decide), h5 1 (by decide),
    h6 7 (by decide)⟩

theorem batchStep_error (st : BatchState) (f : UploadedFile) (e : BatchError)
    (h : processFile f = Except.error e) :
    batchStep st f = { st with errors := st.errors ++ [(f.name, e)] } := by
  unfold batchStep
  rw [h]

theorem batchStep_ok (st : BatchState) (f : UploadedFile) (label : String)
    (df_o df_f : Table) (sh : String)
    (h : processFile f = Except.ok (label, df_o, df_f, sh)) :
    batchStep st f
      = { perOrig := alistInsert st.perOrig label df_o,
          perSub := alistInsert st.perSub label df_f,
          summaryRows := st.summaryRows ++ [mkSummaryRow label sh df_f],
          errors := st.errors } := by
  unfold batchStep
  rw [h]

theorem foldl_batch_errors (files : List UploadedFile) (st : BatchState) :
    (files.foldl batchStep st).errors = st.errors ++ files.filterMap fileError := by
  induction files generalizing st with
  | nil => simp
  | cons f rest ih =>
    rw [List.foldl_cons, ih]
    cases hp : processFile f with
    | error e =>
      have hf : fileError f = some (f.name, e) := by
        unfold fileError
        rw [hp]
      rw [batchStep_error st f e hp, List.filterMap_cons_some hf]
      simp
    | ok v =>
      obtain ⟨label, df_o, df_f, sh⟩ := v
      have hf : fileError f = none := by
        unfold fileError
        rw [hp]
      rw [batchStep_ok st f label df_o df_f sh hp, List.filterMap_cons_none hf]

theorem foldl_batch_summary (files : List UploadedFile) (st : BatchState) :
    (files.foldl batchStep st).summaryRows
      = st.summaryRows ++ files.filterMap fileSummary := by
  induction files generalizing st with
  | nil => simp
  | cons f rest ih =>
    rw [List.foldl_cons, ih]
    cases hp : processFile f with
    | error e =>
      have hf : fileSummary f = none := by
        unfold fileSummary
        rw [hp]
      rw [batchStep_error st f e hp, List.filterMap_cons_none hf]
    | ok v =>
      obtain ⟨label, df_o, df_f, sh⟩ := v
      have hf : fileSummary f = some (mkSummaryRow label sh df_f) := by
        unfold fileSummary
        rw [hp]
      rw [batchStep_ok st f label df_o df_f sh hp, List.filterMap_cons_some hf]
      simp

theorem fileError_none_iff (f : UploadedFile) :
    fileError f = none ↔ processOk f = true := by
  unfold fileError processOk
  cases processFile f <;> simp

/-- C6: every file is attempted — the collected error list is exactly the list
of per-file failures in input order, independent of other files; the batch
yields an output (workbook sheets and summary) iff every file succeeded, and
any reported error list is that full non-empty collection. -/
theorem c6_fail_together_batch (files : List UploadedFile) :
    (runBatchState files).errors = files.filterMap fileError
    ∧ ((∃ out, runBatch files = Except.ok out) ↔ ∀ f ∈ files, processOk f = true)
    ∧ (∀ es, runBatch files = Except.error es →
        es = files.filterMap fileError ∧ es ≠ []) := by
  have herr : (runBatchState files).errors = files.filterMap fileError := by
    unfold runBatchState
    rw [foldl_batch_errors]
    rfl
  have hiff : (runBatchState files).errors.isEmpty = true
      ↔ ∀ f ∈ files, processOk f = true := by
    rw [herr, List.isEmpty_iff, List.filterMap_eq_nil_iff]
    constructor
    · intro h f hf
      exact (fileError_none_iff f).mp (h f hf)
    · intro h f hf
      exact (fileError_none_iff f).mpr (h f hf)
  refine ⟨herr, ?_, ?_⟩
  · constructor
    · rintro ⟨out, hout⟩
      by_cases hE : (runBatchState files).errors.isEmpty = true
      · exact hiff.mp hE
      · have : runBatch files = Except.error (runBatchState files).errors := by
          unfold runBatch
          rw [if_neg hE]
        rw [this] at hout
        exact Except.noConfusion hout
    · intro h
      have hE : (runBatchState files).errors.isEmpty = true := hiff.mpr h
      have hrb : runBatch files = Except.ok
          (_build_excel (runBatchState files).perOrig (runBatchState files).perSub
            (summaryTable (sortSummary (runBatchState files).summaryRows)),
           sortSummary (runBatchState files).summaryRows) := by
        unfold runBatch
        rw [if_pos hE]
      exact ⟨_, hrb⟩
  · intro es hes
    by_cases hE : (runBatchState files).errors.isEmpty = true
    · have hok2 : runBatch files = Except.ok
          (_build_excel (runBatchState files).perOrig (runBatchState files).perSub
            (summaryTable (sortSummary (runBatchState files).summaryRows)),
           sortSummary (runBatchState files).summaryRows) := by
        unfold runBatch
        rw [if_pos hE]
      rw [hok2] at hes
      exact Except.noConfusion hes
    · have hrb : runBatch files = Except.error (runBatchState files).errors := by
        unfold runBatch
        rw [if_neg hE]
      rw [hrb] at hes
      injection hes with hes
      subst hes
      refine ⟨herr, ?_⟩
      intro hnil
      exact hE (by rw [hnil]; rfl)

/-- Witness for C6: a good file and a file missing '단가' — the batch reports
a non-empty error list and produces no output. -/
theorem c6_fail_together_batch_witness :
    (∃ es, runBatch [reportFile1, badFile] = Except.error es ∧ es ≠ [])
    ∧ ¬ (∃ out, runBatch [reportFile1, badFile] = Except.ok out) := by
  have h := c6_fail_together_batch [reportFile1, badFile]
  have hbad : processOk badFile = false := by decide
  have hnall : ¬ ∀ f ∈ [reportFile1, badFile], processOk f = true := by
    intro hall
    have := hall badFile (by simp)
    rw [hbad] at this
    exact Bool.noConfusion this
  refine ⟨?_, fun hout => hnall (h.2.1.mp hout)⟩
  cases hr : runBatch [reportFile1, badFile] with
  | ok out => exact absurd (h.2.1.mp ⟨out, hr⟩) hnall
  | error es => exact ⟨es, rfl, (h.2.2 es hr).2⟩

theorem clean_sheet_name_safe (l : String) (used : List String)
    (hs : sheetSafe l = true) (hnot : l ∉ used) :
    _clean_sheet_name l used = (l, used ++ [l]) := by
  simp only [sheetSafe, Bool.and_eq_true, beq_iff_eq, bne_iff_ne, ne_eq,
    decide_eq_true_eq] at hs
  obtain ⟨⟨⟨hstrip, hsan⟩, hne⟩, hlen⟩ := hs
  have hc : used.contains l = false := by
    simp [List.contains, List.elem_eq_mem, hnot]
  have htake : (l.data.take 31 : List Char) = l.data := List.take_of_length_le hlen
  simp only [_clean_sheet_name]
  rw [hstrip, hsan, if_neg hne, htake]
  rw [show (⟨l.data⟩ : String) = l from rfl, hc]
  rfl

theorem alistInsert_keys {α : Type} (m : List (String × α)) (k : String) (v : α) :
    (alistInsert m k v).map Prod.fst = dedupStep (m.map Prod.fst) k := by
  unfold dedupStep
  induction m with
  | nil => simp [alistInsert]
  | cons p rest ih =>
    obtain ⟨k1, v1⟩ := p
    show ((if k1 = k then (k, v) :: rest else (k1, v1) :: alistInsert rest k v).map
      Prod.fst) = _
    by_cases h : k1 = k
    · subst h
      rw [if_pos rfl]
      simp
    · rw [if_neg h, List.map_cons, List.map_cons, ih]
      by_cases h2 : k ∈ rest.map Prod.fst
      · rw [if_pos h2, if_pos (List.mem_cons_of_mem k1 h2)]
      · have h3 : ¬ k ∈ (k1 :: rest.map Prod.fst) := by
          intro hmem
          rcases List.mem_cons.mp hmem with h4 | h4
          · exact h h4.symm
          · exact h2 h4
        rw [if_neg h2, if_neg h3]
        simp

theorem foldl_batch_perOrig_keys (files : List UploadedFile) (st : BatchState) :
    (files.foldl batchStep st).perOrig.map Prod.fst
      = (files.filterMap successLabel).foldl dedupStep (st.perOrig.map Prod.fst) := by
  induction files generalizing st with
  | nil => simp
  | cons f rest ih =>
    rw [List.foldl_cons, ih]
    cases hp : processFile f with
    | error e =>
      have hl : successLabel f = none := by
        unfold successLabel
        rw [hp]
      rw [batchStep_error st f e hp, List.filterMap_cons_none hl]
    | ok v =>
      obtain ⟨label, df_o, df_f, sh⟩ := v
      have hl : successLabel f = some label := by
        unfold successLabel
        rw [hp]
      rw [List.filterMap_cons_some hl, List.foldl_cons,
        batchStep_ok st f label df_o df_f sh hp]
      congr 1
      exact alistInsert_keys st.perOrig label df_o

theorem mem_foldl_dedup (ls : List String) (acc : List String) (x : String) :
    x ∈ ls.foldl dedupStep acc ↔ x ∈ acc ∨ x ∈ ls := by
  induction ls generalizing acc with
  | nil => simp
  | cons l rest ih =>
    rw [List.foldl_cons, ih]
    unfold dedupStep
    by_cases h : l ∈ acc
    · rw [if_pos h]
      constructor
      · rintro (h1 | h1)
        · exact Or.inl h1
        · exact Or.inr (List.mem_cons_of_mem l h1)
      · rintro (h1 | h1)
        · exact Or.inl h1
        · rcases List.mem_cons.mp h1 with rfl | h2
          · exact Or.inl h
          · exact Or.inr h2
    · rw [if_neg h]
      constructor
      · rintro (h1 | h1)
        · rcases List.mem_append.mp h1 with h2 | h2
          · exact Or.inl h2
          · exact Or.inr (List.mem_cons.mpr (Or.inl (List.mem_singleton.mp h2)))
        · exact Or.inr (List.mem_cons_of_mem l h1)
      · rintro (h1 | h1)
        · exact Or.inl (List.mem_append.mpr (Or.inl h1))
        · rcases List.mem_cons.mp h1 with rfl | h2
          · exact Or.inl (List.mem_append.mpr (Or.inr (List.mem_singleton.mpr rfl)))
          · exact Or.inr h2

theorem nodup_foldl_dedup (ls : List String) (acc : List String) (h : acc.Nodup) :
    (ls.foldl dedupStep acc).Nodup := by
  induction ls generalizing acc with
  | nil => exact h
  | cons l rest ih =>
    rw [List.foldl_cons]
    apply ih
    unfold dedupStep
    by_cases hm : l ∈ acc
    · rw [if_pos hm]
      exact h
    · rw [if_neg hm, ← List.concat_eq_append]
      exact List.Nodup.concat hm h

theorem buildStep_fold_names (entries perSub : List (String × Table))
    (acc : List (String × Grid)) (used : List String)
    (hsafe : ∀ l ∈ entries.map Prod.fst, sheetSafe l = true)
    (hnodup : (entries.map Prod.fst).Nodup)
    (hfresh : ∀ l ∈ entries.map Prod.fst, l ∉ used) :
    ((entries.foldl (buildStep perSub) (acc, used)).1).map Prod.fst
      = acc.map Prod.fst ++ entries.map Prod.fst := by
  induction entries generalizing acc used with
  | nil => simp
  | cons e rest ih =>
    obtain ⟨l, t⟩ := e
    have hnd := List.nodup_cons.mp
      (show (l :: rest.map Prod.fst).Nodup from hnodup)
    have hcl : _clean_sheet_name l used = (l, used ++ [l]) :=
      clean_sheet_name_safe l used (hsafe l (by simp)) (hfresh l (by simp))
    have hstep : buildStep perSub (acc, used) (l, t)
        = (acc ++ [(l, buildSheetGrid ((perSub.lookup l).getD emptyTable) t)],
           used ++ [l]) := by
      unfold buildStep
      rw [hcl]
    rw [List.foldl_cons, hstep,
      ih (acc ++ [(l, buildSheetGrid ((perSub.lookup l).getD emptyTable) t)])
        (used ++ [l])
        (fun l' h' => hsafe l' (by simp [h']))
        hnd.2
        (fun l' h' hmem => by
          rcases List.mem_append.mp hmem with h2 | h2
          · exact hfresh l' (by simp [h']) h2
          · rcases List.mem_singleton.mp h2 with rfl
            exact hnd.1 h')]
    simp

theorem processFile_label (f : UploadedFile) (label : String) (o s : Table)
    (sh : String) (h : processFile f = Except.ok (label, o, s, sh)) :
    label = fileLabel f.name := by
  unfold processFile at h
  cases hl : _load_original f with
  | error e =>
    rw [hl] at h
    exact Except.noConfusion h
  | ok v =>
    obtain ⟨df_o, usedSheet⟩ := v
    rw [hl] at h
    have h2 : (match _make_filtered df_o with
        | Except.error e => (Except.error (BatchError.extractError e) :
            Except BatchError (String × Table × Table × String))
        | Except.ok df_f => Except.ok (fileLabel f.name, df_o, df_f, usedSheet))
        = Except.ok (label, o, s, sh) := h
    cases hm : _make_filtered df_o with
    | error e =>
      rw [hm] at h2
      exact Except.noConfusion h2
    | ok df_f =>
      rw [hm] at h2
      injection h2 with h2
      exact (congrArg (fun p => p.1) h2).symm

theorem successLabel_of_ok (f : UploadedFile) (h : processOk f = true) :
    successLabel f = some (fileLabel f.name) := by
  unfold processOk at h
  unfold successLabel
  cases hp : processFile f with
  | error e =>
    rw [hp] at h
    exact Bool.noConfusion h
  | ok v =>
    obtain ⟨label, df_o, df_f, sh⟩ := v
    rw [processFile_label f label df_o df_f sh hp]

theorem filterMap_successLabel_of_ok (files : List UploadedFile)
    (hok : ∀ f ∈ files, processOk f = true) :
    files.filterMap successLabel = files.map (fun f => fileLabel f.name) := by
  induction files with
  | nil => rfl
  | cons f rest ih =>
    rw [List.filterMap_cons_some (successLabel_of_ok f (hok f (by simp))),
      List.map_cons, ih (fun g hg => hok g (by simp [hg]))]

/-- C7 counterexample: two uploaded files both named "Report.xlsx" produce a
workbook with only two sheets, "요약" and a single "Report" — not the three
sheets "요약", "Report", "Report_2" the claim predicts. -/
theorem c7_duplicate_label_counterexample :
    ((runBatch [reportFile1, reportFile2]).toOption.map
        (fun out => out.1.map Prod.fst)) = some ["요약", "Report"]
    ∧ ((runBatch [reportFile1, reportFile2]).toOption.map
        (fun out => out.1.map Prod.fst)) ≠ some ["요약", "Report", "Report_2"] := by
  have h : ((runBatch [reportFile1, reportFile2]).toOption.map
      (fun out => out.1.map Prod.fst)) = some ["요약", "Report"] := rfl
  refine ⟨h, ?_⟩
  rw [h]
  decide

/-- C7 (amended): the workbook lists the summary sheet "요약" first, then one
file sheet per *distinct* label in order of first appearance — duplicate-label
files collapse into a single sheet (the label-keyed dicts deduplicate before
sheet naming), so no `_2` suffix arises from duplicate labels. (Stated for
labels the sanitizer passes through unchanged and distinct from "요약".) -/
theorem c7_summary_then_one_sheet_per_label (files : List UploadedFile)
    (hok : ∀ f ∈ files, processOk f = true)
    (hsafe : ∀ f ∈ files, sheetSafe (fileLabel f.name) = true)
    (hnotsum : ∀ f ∈ files, fileLabel f.name ≠ "요약") :
    ∃ wb summary, runBatch files = Except.ok (wb, summary)
      ∧ wb.map Prod.fst = "요약" :: dedupFO (files.map (fun f => fileLabel f.name)) := by
  have herr : (runBatchState files).errors = [] := by
    unfold runBatchState
    rw [foldl_batch_errors]
    rw [List.nil_append, List.filterMap_eq_nil_iff]
    intro f hf
    exact (fileError_none_iff f).mpr (hok f hf)
  have hE : (runBatchState files).errors.isEmpty = true := by
    rw [herr]
    rfl
  have hrb : runBatch files = Except.ok
      (_build_excel (runBatchState files).perOrig (runBatchState files).perSub
        (summaryTable (sortSummary (runBatchState files).summaryRows)),
       sortSummary (runBatchState files).summaryRows) := by
    unfold runBatch
    rw [if_pos hE]
  have hkeys : (runBatchState files).perOrig.map Prod.fst
      = dedupFO (files.map (fun f => fileLabel f.name)) := by
    unfold runBatchState
    rw [foldl_batch_perOrig_keys, filterMap_successLabel_of_ok files hok]
    rfl
  have hmemkeys : ∀ l ∈ (runBatchState files).perOrig.map Prod.fst,
      ∃ f ∈ files, l = fileLabel f.name := by
    intro l hl
    rw [hkeys] at hl
    have hl2 : l ∈ files.map (fun f => fileLabel f.name) := by
      have := (mem_foldl_dedup _ [] l).mp hl
      rcases this with h0 | h0
      · exact absurd h0 (List.not_mem_nil l)
      · exact h0
    rcases List.mem_map.mp hl2 with ⟨f, hf, rfl⟩
    exact ⟨f, hf, rfl⟩
  have hnames : (_build_excel (runBatchState files).perOrig (runBatchState files).perSub
        (summaryTable (sortSummary (runBatchState files).summaryRows))).map Prod.fst
      = "요약" :: (runBatchState files).perOrig.map Prod.fst := by
    simp only [_build_excel]
    rw [show _clean_sheet_name "요약" [] = ("요약", ["요약"]) from rfl]
    rw [List.map_cons]
    rw [buildStep_fold_names _ _ [] ["요약"]
      (fun l hl => by
        rcases hmemkeys l hl with ⟨f, hf, rfl⟩
        exact hsafe f hf)
      (by
        have := nodup_foldl_dedup (files.map (fun f => fileLabel f.name)) [] List.nodup_nil
        rw [hkeys]
        exact this)
      (fun l hl hmem => by
        rcases hmemkeys l hl with ⟨f, hf, rfl⟩
        exact hnotsum f hf (List.mem_singleton.mp hmem))]
    rfl
  refine ⟨_, _, hrb, ?_⟩
  rw [hnames, hkeys]

/-- Witness for C7 (amended): two well-formed files labelled "Report" and
"Other" yield exactly the sheets ["요약", "Report", "Other"]. -/
theorem c7_summary_then_one_sheet_per_label_witness :
    (∃ wb summary, runBatch [reportFile1, otherFile] = Except.ok (wb, summary)
      ∧ wb.map Prod.fst
          = "요약" :: dedupFO ([reportFile1, otherFile].map (fun f => fileLabel f.name)))
    ∧ "요약" :: dedupFO ([reportFile1, otherFile].map (fun f => fileLabel f.name))
        = ["요약", "Report", "Other"] := by
  refine ⟨c7_summary_then_one_sheet_per_label [reportFile1, otherFile]
    (by decide) (by decide) (by decide), rfl⟩

/-- C10: when two files yield the same label, the later file's original and
subtotal tables replace the earlier file's in the label-keyed maps, a summary
row is still appended for each file, and the workbook gets exactly one file
sheet for that label, holding the later file's two-block layout. -/
theorem c10_same_label_later_file_wins (f1 f2 : UploadedFile) (l sh1 sh2 : String)
    (o1 s1 o2 s2 : Table)
    (h1 : processFile f1 = Except.ok (l, o1, s1, sh1))
    (h2 : processFile f2 = Except.ok (l, o2, s2, sh2)) :
    (runBatchState [f1, f2]).perOrig = [(l, o2)]
    ∧ (runBatchState [f1, f2]).perSub = [(l, s2)]
    ∧ (runBatchState [f1, f2]).summaryRows
        = [mkSummaryRow l sh1 s1, mkSummaryRow l sh2 s2]
    ∧ ∃ sumSheet fileSheet summary,
        runBatch [f1, f2] = Except.ok ([sumSheet, fileSheet], summary)
        ∧ fileSheet.2 = buildSheetGrid s2 o2 := by
  have hst : runBatchState [f1, f2]
      = { perOrig := [(l, o2)], perSub := [(l, s2)],
          summaryRows := [mkSummaryRow l sh1 s1, mkSummaryRow l sh2 s2],
          errors := [] } := by
    unfold runBatchState
    rw [List.foldl_cons, List.foldl_cons, List.foldl_nil,
      batchStep_ok _ f1 l o1 s1 sh1 h1, batchStep_ok _ f2 l o2 s2 sh2 h2]
    simp [alistInsert]
  have hE : (runBatchState [f1, f2]).errors.isEmpty = true := by
    rw [hst]
    rfl
  have hrb : runBatch [f1, f2] = Except.ok
      (_build_excel (runBatchState [f1, f2]).perOrig (runBatchState [f1, f2]).perSub
        (summaryTable (sortSummary (runBatchState [f1, f2]).summaryRows)),
       sortSummary (runBatchState [f1, f2]).summaryRows) := by
    unfold runBatch
    rw [if_pos hE]
  have hwb : ∀ summary : Table, _build_excel [(l, o2)] [(l, s2)] summary
      = [("요약", writeDF emptyGrid summary 0),
         ((_clean_sheet_name l ["요약"]).1, buildSheetGrid s2 o2)] := by
    intro summary
    simp only [_build_excel]
    rw [show _clean_sheet_name "요약" [] = ("요약", ["요약"]) from rfl]
    rw [List.foldl_cons, List.foldl_nil]
    simp only [buildStep]
    rw [show ([(l, s2)].lookup l) = some s2 from by rw [lookup_cons_eqn, if_pos rfl]]
    rfl
  refine ⟨by rw [hst], by rw [hst], by rw [hst], ?_⟩
  refine ⟨("요약", writeDF emptyGrid
      (summaryTable (sortSummary (runBatchState [f1, f2]).summaryRows)) 0),
    ((_clean_sheet_name l ["요약"]).1, buildSheetGrid s2 o2),
    sortSummary (runBatchState [f1, f2]).summaryRows, ?_, rfl⟩
  rw [hrb]
  rw [show (runBatchState [f1, f2]).perOrig = [(l, o2)] from by rw [hst],
    show (runBatchState [f1, f2]).perSub = [(l, s2)] from by rw [hst]]
  rw [hwb]

/-- Witness for C10: both "Report.xlsx" files processed; the maps keep only
the later file's tables while two summary rows survive, and the single file
sheet holds the later file's blocks. -/
theorem c10_same_label_later_file_wins_witness :
    (runBatchState [reportFile1, reportFile2]).perOrig = [("Report", reportTable "250")]
    ∧ (runBatchState [reportFile1, reportFile2]).perSub
        = [("Report", subtotalTable (reportTable "250"))]
    ∧ (runBatchState [reportFile1, reportFile2]).summaryRows
        = [mkSummaryRow "Report" "Sheet1" (subtotalTable (reportTable "100")),
           mkSummaryRow "Report" "Sheet1" (subtotalTable (reportTable "250"))]
    ∧ ∃ sumSheet fileSheet summary,
        runBatch [reportFile1, reportFile2] = Except.ok ([sumSheet, fileSheet], summary)
        ∧ fileSheet.2
            = buildSheetGrid (subtotalTable (reportTable "250")) (reportTable "250") :=
  c10_same_label_later_file_wins reportFile1 reportFile2 "Report" "Sheet1" "Sheet1"
    (reportTable "100") (subtotalTable (reportTable "100"))
    (reportTable "250") (subtotalTable (reportTable "250")) rfl rfl
